import Mathlib

/-!
Verification of the ShopifyQL helper utilities and tool execute functions
of the shopify-mcp repository, as a shallow embedding in Lean.

Conventions of the embedding:
* TypeScript strings are Lean `String`, TS numbers appearing here are `Int`
  (all values involved are integral), optional (possibly `undefined`) values
  are `Option`.
* TS truthiness tests on `string | undefined` and `number | undefined`
  (`if (options.where)`, `if (options.limit)`) are modelled by `truthyStr`
  and `truthyInt`: `undefined` and the empty string / zero are falsy.
* Each tool `execute` is an async function whose only effect is one GraphQL
  round trip; it is modelled as a pure function from the tool input and the
  remote outcome (`Except String Response`, error = rejected request with
  the given message) to `Except String Output` (error = the thrown Error's
  message). The try/catch wrapper that logs and rethrows with a
  tool-specific message head is `catchWrap`.
-/

/-- JS truthiness for a `string | undefined` value: `undefined` and `""` are falsy. -/
def truthyStr : Option String → Bool
  | none => false
  | some s => !s.isEmpty

/-- JS truthiness for a `number | undefined` value: `undefined` and `0` are falsy. -/
def truthyInt : Option Int → Bool
  | none => false
  | some n => n != 0

/-- periodToShopifyQL from src/utils/shopifyqlHelpers.ts: map a period token to a
ShopifyQL date clause, with `SINCE -30d` as the fallback for unknown tokens. -/
def periodToShopifyQL (period : String) : String :=
  if period = "today" then "SINCE today"
  else if period = "yesterday" then "DURING yesterday"
  else if period = "last_7_days" then "SINCE -7d"
  else if period = "last_30_days" then "SINCE -30d"
  else if period = "last_90_days" then "SINCE -90d"
  else if period = "last_month" then "DURING last_month"
  else if period = "this_month" then "SINCE startOfMonth(0m)"
  else if period = "this_year" then "SINCE startOfYear(0y)"
  else if period = "last_year" then "DURING last_year"
  else "SINCE -30d"

/-- groupByToShopifyQL from src/utils/shopifyqlHelpers.ts. -/
def groupByToShopifyQL (groupBy : String) : String :=
  if groupBy = "day" then "GROUP BY day"
  else if groupBy = "week" then "GROUP BY week"
  else if groupBy = "month" then "GROUP BY month"
  else if groupBy = "product" then "GROUP BY product_title"
  else if groupBy = "product_type" then "GROUP BY product_type"
  else if groupBy = "channel" then "GROUP BY sales_channel"
  else if groupBy = "region" then "GROUP BY billing_country"
  else if groupBy = "customer_type" then "GROUP BY customer_type"
  else "GROUP BY day"

/-- groupByToOrderBy from src/utils/shopifyqlHelpers.ts. -/
def groupByToOrderBy (groupBy : String) : String :=
  if groupBy = "day" then "ORDER BY day"
  else if groupBy = "week" then "ORDER BY week"
  else if groupBy = "month" then "ORDER BY month"
  else if groupBy = "product" then "ORDER BY total_sales DESC"
  else if groupBy = "product_type" then "ORDER BY total_sales DESC"
  else if groupBy = "channel" then "ORDER BY total_sales DESC"
  else if groupBy = "region" then "ORDER BY total_sales DESC"
  else if groupBy = "customer_type" then "ORDER BY total_sales DESC"
  else "ORDER BY day"

/-- The options record taken by buildShopifyQLQuery. The TS field names
from / show / where are Lean keywords, hence the trailing underscores. -/
structure ShopifyQLOptions where
  from_ : String
  show_ : List String
  where_ : Option String := none
  groupBy : Option String := none
  period : String
  orderBy : Option String := none
  limit : Option Int := none

/-- buildShopifyQLQuery from src/utils/shopifyqlHelpers.ts: assemble the parts
array in source order and join with single spaces. The optional clauses are
guarded by JS truthiness exactly as in the source. -/
def buildShopifyQLQuery (o : ShopifyQLOptions) : String :=
  let parts := ["FROM " ++ o.from_, "SHOW " ++ String.intercalate ", " o.show_]
  let parts := if truthyStr o.where_ then parts ++ ["WHERE " ++ o.where_.getD ""] else parts
  let parts := parts ++ [periodToShopifyQL o.period]
  let parts := if truthyStr o.groupBy then parts ++ [groupByToShopifyQL (o.groupBy.getD "")] else parts
  let parts :=
    if truthyStr o.orderBy then parts ++ [o.orderBy.getD ""]
    else if truthyStr o.groupBy then parts ++ [groupByToOrderBy (o.groupBy.getD "")]
    else parts
  let parts := if truthyInt o.limit then parts ++ ["LIMIT " ++ toString (o.limit.getD 0)] else parts
  String.intercalate " " parts

/-- The period tokens of the periodMap in periodToShopifyQL. -/
def supportedPeriods : List String :=
  ["today", "yesterday", "last_7_days", "last_30_days", "last_90_days",
   "last_month", "this_month", "this_year", "last_year"]

/-- The grouping tokens of the maps in groupByToShopifyQL / groupByToOrderBy. -/
def supportedGroupBys : List String :=
  ["day", "week", "month", "product", "product_type", "channel", "region",
   "customer_type"]

/-- C1: buildShopifyQLQuery on from sales, show total_sales and orders, period
last_7_days, groupBy day, limit 50 (no where, no orderBy) yields exactly the
expected query string, with no WHERE clause emitted. -/
theorem c1_exact_query :
    buildShopifyQLQuery
      { from_ := "sales", show_ := ["total_sales", "orders"], where_ := none,
        groupBy := some "day", period := "last_7_days", orderBy := none,
        limit := some 50 } =
      "FROM sales SHOW total_sales, orders SINCE -7d GROUP BY day ORDER BY day LIMIT 50" := by
  rfl

/-- C2: periodToShopifyQL is total: every supported period token yields a
non-empty clause starting with SINCE or DURING (stated over the character
data, taking a prefix of the clause), and every other string yields exactly
the default SINCE -30d. -/
theorem c2_period_total (p : String) :
    (p ∈ supportedPeriods →
      periodToShopifyQL p ≠ "" ∧
        ((periodToShopifyQL p).data.take 5 = "SINCE".data ∨
          (periodToShopifyQL p).data.take 6 = "DURING".data)) ∧
    (p ∉ supportedPeriods → periodToShopifyQL p = "SINCE -30d") := by
  constructor
  · intro hp
    simp only [supportedPeriods, List.mem_cons, List.mem_singleton] at hp
    rcases hp with rfl | rfl | rfl | rfl | rfl | rfl | rfl | rfl | rfl | h
    · exact ⟨by decide, Or.inl (by decide)⟩
    · exact ⟨by decide, Or.inr (by decide)⟩
    · exact ⟨by decide, Or.inl (by decide)⟩
    · exact ⟨by decide, Or.inl (by decide)⟩
    · exact ⟨by decide, Or.inl (by decide)⟩
    · exact ⟨by decide, Or.inr (by decide)⟩
    · exact ⟨by decide, Or.inl (by decide)⟩
    · exact ⟨by decide, Or.inl (by decide)⟩
    · exact ⟨by decide, Or.inr (by decide)⟩
    · cases h
  · intro hp
    rw [periodToShopifyQL]
    split_ifs with h1 h2 h3 h4 h5 h6 h7 h8 h9
    · exact absurd (h1 ▸ (by decide : ("today" : String) ∈ supportedPeriods)) hp
    · exact absurd (h2 ▸ (by decide : ("yesterday" : String) ∈ supportedPeriods)) hp
    · exact absurd (h3 ▸ (by decide : ("last_7_days" : String) ∈ supportedPeriods)) hp
    · exact absurd (h4 ▸ (by decide : ("last_30_days" : String) ∈ supportedPeriods)) hp
    · exact absurd (h5 ▸ (by decide : ("last_90_days" : String) ∈ supportedPeriods)) hp
    · exact absurd (h6 ▸ (by decide : ("last_month" : String) ∈ supportedPeriods)) hp
    · exact absurd (h7 ▸ (by decide : ("this_month" : String) ∈ supportedPeriods)) hp
    · exact absurd (h8 ▸ (by decide : ("this_year" : String) ∈ supportedPeriods)) hp
    · exact absurd (h9 ▸ (by decide : ("last_year" : String) ∈ supportedPeriods)) hp
    · rfl

/-- C2 witness: the theorem instantiated at the supported token yesterday and
at the unrecognized token foo. -/
theorem c2_period_total_witness :
    (periodToShopifyQL "yesterday" ≠ "" ∧
      ((periodToShopifyQL "yesterday").data.take 5 = "SINCE".data ∨
        (periodToShopifyQL "yesterday").data.take 6 = "DURING".data)) ∧
    periodToShopifyQL "foo" = "SINCE -30d" :=
  ⟨(c2_period_total "yesterday").1 (by decide),
   (c2_period_total "foo").2 (by decide)⟩

/-- A string with isEmpty false is not the empty string. -/
theorem ne_empty_of_isEmpty_false {s : String} (h : s.isEmpty = false) : s ≠ "" := by
  intro he
  subst he
  exact absurd h (by decide)

/-- Appending to a non-empty string on the left stays non-empty. -/
theorem append_ne_empty_left {s : String} (t : String) (h : s ≠ "") : s ++ t ≠ "" := by
  intro he
  apply h
  have hd := congrArg String.data he
  rw [String.data_append] at hd
  exact String.ext (List.append_eq_nil.mp hd).1

/-- A truthy optional string carries a non-empty default-extracted value. -/
theorem truthyStr_getD_ne_empty {x : Option String} (h : truthyStr x = true) :
    x.getD "" ≠ "" := by
  cases x with
  | none => exact absurd h (by decide)
  | some s =>
    simp only [truthyStr, Bool.not_eq_true'] at h
    exact ne_empty_of_isEmpty_false h

/-- periodToShopifyQL never returns the empty string. -/
theorem periodToShopifyQL_ne_empty (p : String) : periodToShopifyQL p ≠ "" := by
  rw [periodToShopifyQL]
  split_ifs <;> decide

/-- groupByToShopifyQL never returns the empty string. -/
theorem groupByToShopifyQL_ne_empty (g : String) : groupByToShopifyQL g ≠ "" := by
  rw [groupByToShopifyQL]
  split_ifs <;> decide

/-- groupByToOrderBy never returns the empty string. -/
theorem groupByToOrderBy_ne_empty (g : String) : groupByToOrderBy g ≠ "" := by
  rw [groupByToOrderBy]
  split_ifs <;> decide

/-- The clause skeleton described by the spec: one optional slot per clause, in
the fixed order FROM, SHOW, WHERE, period, GROUP BY, ORDER BY, LIMIT, where a
slot is none exactly when the source skips the clause. -/
def shopifyQLClauses (o : ShopifyQLOptions) : List (Option String) :=
  [some ("FROM " ++ o.from_),
   some ("SHOW " ++ String.intercalate ", " o.show_),
   if truthyStr o.where_ then some ("WHERE " ++ o.where_.getD "") else none,
   some (periodToShopifyQL o.period),
   if truthyStr o.groupBy then some (groupByToShopifyQL (o.groupBy.getD "")) else none,
   if truthyStr o.orderBy then some (o.orderBy.getD "")
   else if truthyStr o.groupBy then some (groupByToOrderBy (o.groupBy.getD ""))
   else none,
   if truthyInt o.limit then some ("LIMIT " ++ toString (o.limit.getD 0)) else none]

/-- C3: for every input, buildShopifyQLQuery is the space-join of exactly the
present clauses of the fixed-order clause skeleton (so omitted optional
clauses contribute nothing), and every emitted clause is non-empty. -/
theorem c3_clause_order (o : ShopifyQLOptions) :
    buildShopifyQLQuery o = String.intercalate " " ((shopifyQLClauses o).filterMap id) ∧
    ∀ c ∈ (shopifyQLClauses o).filterMap id, c ≠ "" := by
  constructor
  · rw [buildShopifyQLQuery, shopifyQLClauses]
    split_ifs <;> simp [List.filterMap_cons]
  · intro c hc
    rw [shopifyQLClauses] at hc
    split_ifs at hc <;>
      simp only [List.filterMap_cons, id, List.filterMap_nil, List.mem_cons,
        List.not_mem_nil, or_false] at hc <;>
      rcases hc with rfl | rfl | rfl | rfl | rfl | rfl | rfl <;>
      first
        | exact append_ne_empty_left _ (by decide)
        | exact periodToShopifyQL_ne_empty _
        | exact groupByToShopifyQL_ne_empty _
        | exact groupByToOrderBy_ne_empty _
        | exact truthyStr_getD_ne_empty (by assumption)

/-- C3 witness: the theorem applied at a concrete specification, with the
clause membership hypothesis discharged at the FROM clause. -/
theorem c3_clause_order_witness :
    buildShopifyQLQuery
        { from_ := "sales", show_ := ["total_sales"], period := "today" } =
      String.intercalate " "
        ((shopifyQLClauses
          { from_ := "sales", show_ := ["total_sales"], period := "today" }).filterMap id) ∧
    ("FROM sales" : String) ≠ "" :=
  ⟨(c3_clause_order { from_ := "sales", show_ := ["total_sales"], period := "today" }).1,
   (c3_clause_order { from_ := "sales", show_ := ["total_sales"], period := "today" }).2
     "FROM sales" (by decide)⟩

/-- Helper for the join of a parts list with one appended element. -/
theorem intercalate_go_append (sep y : String) (xs : List String) :
    ∀ acc : String,
      String.intercalate.go acc sep (xs ++ [y]) =
        String.intercalate.go acc sep xs ++ sep ++ y := by
  induction xs with
  | nil => intro acc; simp [String.intercalate.go]
  | cons a as ih => intro acc; simp only [List.cons_append, String.intercalate.go]; exact ih _

/-- Joining a non-empty parts list with one extra final part appends the
separator and that part. -/
theorem intercalate_append_singleton (sep y a : String) (xs : List String) :
    String.intercalate sep (a :: xs ++ [y]) =
      String.intercalate sep (a :: xs) ++ sep ++ y := by
  simp only [List.cons_append, String.intercalate]
  exact intercalate_go_append sep y xs a

/-- The parts array of buildShopifyQLQuery just before the limit step. -/
def shopifyQLPartsNoLimit (o : ShopifyQLOptions) : List String :=
  let parts := ["FROM " ++ o.from_, "SHOW " ++ String.intercalate ", " o.show_]
  let parts := if truthyStr o.where_ then parts ++ ["WHERE " ++ o.where_.getD ""] else parts
  let parts := parts ++ [periodToShopifyQL o.period]
  let parts := if truthyStr o.groupBy then parts ++ [groupByToShopifyQL (o.groupBy.getD "")] else parts
  if truthyStr o.orderBy then parts ++ [o.orderBy.getD ""]
  else if truthyStr o.groupBy then parts ++ [groupByToOrderBy (o.groupBy.getD "")]
  else parts

/-- buildShopifyQLQuery factored through the pre-limit parts array. -/
theorem buildShopifyQLQuery_eq_parts (o : ShopifyQLOptions) :
    buildShopifyQLQuery o =
      String.intercalate " "
        (if truthyInt o.limit then shopifyQLPartsNoLimit o ++ ["LIMIT " ++ toString (o.limit.getD 0)]
         else shopifyQLPartsNoLimit o) := rfl

/-- The pre-limit parts array ignores the limit field. -/
theorem shopifyQLPartsNoLimit_limit_irrel (o : ShopifyQLOptions) (x : Option Int) :
    shopifyQLPartsNoLimit { o with limit := x } = shopifyQLPartsNoLimit o := rfl

/-- The pre-limit parts array is never empty. -/
theorem shopifyQLPartsNoLimit_ne_nil (o : ShopifyQLOptions) :
    shopifyQLPartsNoLimit o ≠ [] := by
  rw [shopifyQLPartsNoLimit]
  split_ifs <;> simp

/-- C10: buildShopifyQLQuery treats limit 0 exactly like an absent limit (no
LIMIT clause), and a non-zero limit n appends exactly one trailing LIMIT n
clause to the query built without a limit. -/
theorem c10_limit_truthiness (o : ShopifyQLOptions) (n : Int) :
    buildShopifyQLQuery { o with limit := some 0 } =
      buildShopifyQLQuery { o with limit := none } ∧
    (n ≠ 0 →
      buildShopifyQLQuery { o with limit := some n } =
        buildShopifyQLQuery { o with limit := none } ++ " " ++
          ("LIMIT " ++ toString n)) := by
  constructor
  · rw [buildShopifyQLQuery_eq_parts, buildShopifyQLQuery_eq_parts]
    have h0 : truthyInt ({ o with limit := some 0 } : ShopifyQLOptions).limit = false := rfl
    have h1 : truthyInt ({ o with limit := none } : ShopifyQLOptions).limit = false := rfl
    rw [h0, h1, if_neg (by simp), if_neg (by simp),
      shopifyQLPartsNoLimit_limit_irrel o (some 0), shopifyQLPartsNoLimit_limit_irrel o none]
  · intro hn
    rw [buildShopifyQLQuery_eq_parts, buildShopifyQLQuery_eq_parts]
    have ht : truthyInt ({ o with limit := some n } : ShopifyQLOptions).limit = true := by
      simp [truthyInt, hn]
    have h1 : truthyInt ({ o with limit := none } : ShopifyQLOptions).limit = false := rfl
    rw [ht, h1, if_pos rfl, if_neg (by simp),
      shopifyQLPartsNoLimit_limit_irrel o (some n), shopifyQLPartsNoLimit_limit_irrel o none]
    have hg : ({ o with limit := some n } : ShopifyQLOptions).limit.getD 0 = n := rfl
    rw [hg]
    obtain ⟨a, xs, hx⟩ : ∃ a xs, shopifyQLPartsNoLimit o = a :: xs := by
      cases hsp : shopifyQLPartsNoLimit o with
      | nil => exact absurd hsp (shopifyQLPartsNoLimit_ne_nil o)
      | cons a xs => exact ⟨a, xs, rfl⟩
    rw [hx]
    exact intercalate_append_singleton " " ("LIMIT " ++ toString n) a xs

/-- C10 witness: the theorem applied at a concrete specification and the
non-zero limit 7. -/
theorem c10_limit_truthiness_witness :
    buildShopifyQLQuery
        { from_ := "sales", show_ := ["orders"], period := "today", limit := some 7 } =
      buildShopifyQLQuery
        { from_ := "sales", show_ := ["orders"], period := "today", limit := none } ++
        " " ++ ("LIMIT " ++ toString (7 : Int)) :=
  (c10_limit_truthiness
    { from_ := "sales", show_ := ["orders"], period := "today" } 7).2 (by decide)

/-- C8 counterexample: for the grouping token product, the group clause is on
column product_title but the default ordering clause is on total_sales, not on
that same column, refuting the claim that the ORDER BY clause is always on the
GROUP BY column. -/
theorem c8_same_column_counterexample :
    groupByToShopifyQL "product" = "GROUP BY product_title" ∧
    groupByToOrderBy "product" = "ORDER BY total_sales DESC" ∧
    groupByToOrderBy "product" ≠ "ORDER BY product_title" ∧
    groupByToOrderBy "product" ≠ "ORDER BY product_title DESC" := by
  decide

/-- C8 amended: for the time dimensions day, week, month both helpers use that
same column; for the non-time dimensions the group clause uses the mapped
column while the default ordering clause is ORDER BY total_sales DESC; every
unrecognized token falls back to GROUP BY day and ORDER BY day. -/
theorem c8_groupby_mapping (g : String) :
    (g ∈ ["day", "week", "month"] →
      groupByToShopifyQL g = "GROUP BY " ++ g ∧ groupByToOrderBy g = "ORDER BY " ++ g) ∧
    (g ∈ ["product", "product_type", "channel", "region", "customer_type"] →
      groupByToOrderBy g = "ORDER BY total_sales DESC") ∧
    (g ∉ supportedGroupBys →
      groupByToShopifyQL g = "GROUP BY day" ∧ groupByToOrderBy g = "ORDER BY day") ∧
    (groupByToShopifyQL "product" = "GROUP BY product_title" ∧
      groupByToShopifyQL "product_type" = "GROUP BY product_type" ∧
      groupByToShopifyQL "channel" = "GROUP BY sales_channel" ∧
      groupByToShopifyQL "region" = "GROUP BY billing_country" ∧
      groupByToShopifyQL "customer_type" = "GROUP BY customer_type") := by
  refine ⟨?_, ?_, ?_, by decide⟩
  · intro hg
    simp only [List.mem_cons, List.mem_singleton] at hg
    rcases hg with rfl | rfl | rfl | h
    · exact ⟨by decide, by decide⟩
    · exact ⟨by decide, by decide⟩
    · exact ⟨by decide, by decide⟩
    · cases h
  · intro hg
    simp only [List.mem_cons, List.mem_singleton] at hg
    rcases hg with rfl | rfl | rfl | rfl | rfl | h
    · decide
    · decide
    · decide
    · decide
    · decide
    · cases h
  · intro hg
    constructor
    · rw [groupByToShopifyQL]
      split_ifs with h1 h2 h3 h4 h5 h6 h7 h8
      · exact absurd (h1 ▸ (by decide : ("day" : String) ∈ supportedGroupBys)) hg
      · exact absurd (h2 ▸ (by decide : ("week" : String) ∈ supportedGroupBys)) hg
      · exact absurd (h3 ▸ (by decide : ("month" : String) ∈ supportedGroupBys)) hg
      · exact absurd (h4 ▸ (by decide : ("product" : String) ∈ supportedGroupBys)) hg
      · exact absurd (h5 ▸ (by decide : ("product_type" : String) ∈ supportedGroupBys)) hg
      · exact absurd (h6 ▸ (by decide : ("channel" : String) ∈ supportedGroupBys)) hg
      · exact absurd (h7 ▸ (by decide : ("region" : String) ∈ supportedGroupBys)) hg
      · exact absurd (h8 ▸ (by decide : ("customer_type" : String) ∈ supportedGroupBys)) hg
      · rfl
    · rw [groupByToOrderBy]
      split_ifs with h1 h2 h3 h4 h5 h6 h7 h8
      · exact absurd (h1 ▸ (by decide : ("day" : String) ∈ supportedGroupBys)) hg
      · exact absurd (h2 ▸ (by decide : ("week" : String) ∈ supportedGroupBys)) hg
      · exact absurd (h3 ▸ (by decide : ("month" : String) ∈ supportedGroupBys)) hg
      · exact absurd (h4 ▸ (by decide : ("product" : String) ∈ supportedGroupBys)) hg
      · exact absurd (h5 ▸ (by decide : ("product_type" : String) ∈ supportedGroupBys)) hg
      · exact absurd (h6 ▸ (by decide : ("channel" : String) ∈ supportedGroupBys)) hg
      · exact absurd (h7 ▸ (by decide : ("region" : String) ∈ supportedGroupBys)) hg
      · exact absurd (h8 ▸ (by decide : ("customer_type" : String) ∈ supportedGroupBys)) hg
      · rfl

/-- C8 witness: the mapping theorem applied at the time token week and at an
unrecognized token. -/
theorem c8_groupby_mapping_witness :
    (groupByToShopifyQL "week" = "GROUP BY " ++ "week" ∧
      groupByToOrderBy "week" = "ORDER BY " ++ "week") ∧
    groupByToOrderBy "region" = "ORDER BY total_sales DESC" ∧
    (groupByToShopifyQL "hour" = "GROUP BY day" ∧ groupByToOrderBy "hour" = "ORDER BY day") :=
  ⟨(c8_groupby_mapping "week").1 (by decide),
   (c8_groupby_mapping "region").2.1 (by decide),
   (c8_groupby_mapping "hour").2.2.1 (by decide)⟩

/-- JS String.prototype.includes for a one-character needle, as used by
getInventoryLevels on productId.includes of a slash. -/
def jsIncludesChar (s : String) (c : Char) : Bool :=
  s.data.contains c

/-- Splitting helper over character data: split at every occurrence of the
separator, keeping empty segments, exactly like the JS String.prototype.split
with a one-character separator. -/
def jsSplitCharAux (c : Char) : List Char → List Char → List (List Char)
  | [], acc => [acc.reverse]
  | x :: xs, acc =>
    if x = c then acc.reverse :: jsSplitCharAux c xs []
    else jsSplitCharAux c xs (x :: acc)

/-- JS String.prototype.split with a one-character separator. -/
def jsSplitChar (s : String) (c : Char) : List String :=
  (jsSplitCharAux c s.data []).map String.mk

/-- The query filter building step of getInventoryLevels.execute: a truthy sku
produces a sku filter; otherwise a truthy productId is reduced to the segment
after the last slash (the numeric ID of a GID) and produces a product_id
filter; otherwise no filter. -/
def buildInventoryQueryFilter (sku productId : Option String) : Option String :=
  if truthyStr sku then some ("sku:" ++ sku.getD "")
  else if truthyStr productId then
    let pid := productId.getD ""
    let numericId := if jsIncludesChar pid '/' then (jsSplitChar pid '/').getLastD "" else pid
    some ("product_id:" ++ numericId)
  else none

/-- C6 counterexample: with a supplied but empty sku and a supplied productId,
the JS truthiness test skips the sku branch, so the resolved filter is the
product_id filter, not the sku filter the claim requires. -/
theorem c6_empty_sku_counterexample :
    buildInventoryQueryFilter (some "") (some "123") = some "product_id:123" ∧
    buildInventoryQueryFilter (some "") (some "123") ≠ some ("sku:" ++ "") := by
  decide

/-- C6 amended: whenever a non-empty sku and any productId are both supplied,
the resolved filter is exactly the sku filter, with no product_id term. -/
theorem c6_sku_precedence (s p : String) (hs : s ≠ "") :
    buildInventoryQueryFilter (some s) (some p) = some ("sku:" ++ s) := by
  have he : s.isEmpty = false :=
    Bool.eq_false_iff.mpr (fun h => hs ((String.isEmpty_iff s).mp h))
  rw [buildInventoryQueryFilter]
  simp [truthyStr, he]

/-- C6 witness: the amended theorem applied to a concrete sku and a concrete
GID-form productId. -/
theorem c6_sku_precedence_witness :
    buildInventoryQueryFilter (some "ABC-1") (some "gid://shopify/Product/123") =
      some ("sku:" ++ "ABC-1") :=
  c6_sku_precedence "ABC-1" "gid://shopify/Product/123" (by decide)

/-- GraphQL edge wrapper: each edge carries one node. -/
structure Edge (α : Type) where
  node : α
deriving DecidableEq

/-- One column descriptor of a shopifyqlQuery tableData response. -/
structure QLColumn where
  name : String
  dataType : String
  displayName : String
deriving DecidableEq

/-- The tableData part of a shopifyqlQuery response. -/
structure QLTableData where
  columns : List QLColumn
  rows : List (List String)
deriving DecidableEq

/-- A shopifyqlQuery field response: nullable tableData plus parseErrors. -/
structure ShopifyQLResponse where
  tableData : Option QLTableData
  parseErrors : List String
deriving DecidableEq

/-- The uniform catch block of every tool: any error thrown inside execute is
caught once and re-thrown with the tool-specific message head prepended. -/
def catchWrap {α : Type} (head : String) : Except String α → Except String α
  | .error msg => .error (head ++ msg)
  | .ok r => .ok r

/-- The message of the Error thrown on a non-empty parseErrors array:
the parse error strings joined with a semicolon separator. -/
def shopifyqlParseErrorsMessage (ps : List String) : String :=
  "ShopifyQL parse errors: " ++ String.intercalate "; " ps

/-- Input of the run-shopifyql-query tool. -/
structure RunShopifyqlQueryInput where
  query : String
deriving DecidableEq

/-- Successful result shape of run-shopifyql-query: columns, rows and a row
count only (the source returns no other field). -/
structure RunQLOutput where
  columns : List QLColumn
  rows : List (List String)
  rowCount : Nat
deriving DecidableEq

/-- The try-block of runShopifyqlQuery.execute after the response arrived. -/
def runShopifyqlQueryBody (resp : ShopifyQLResponse) : Except String RunQLOutput :=
  if resp.parseErrors.length > 0 then
    .error (shopifyqlParseErrorsMessage resp.parseErrors)
  else
    match resp.tableData with
    | none => .ok { columns := [], rows := [], rowCount := 0 }
    | some td => .ok { columns := td.columns, rows := td.rows, rowCount := td.rows.length }

/-- runShopifyqlQuery.execute as a function of the remote outcome. -/
def runShopifyqlQueryExecute (_input : RunShopifyqlQueryInput)
    (remote : Except String ShopifyQLResponse) : Except String RunQLOutput :=
  catchWrap "Failed to execute ShopifyQL query: "
    (match remote with
     | .error e => .error e
     | .ok resp => runShopifyqlQueryBody resp)

/-- Input of the get-sales-report tool (enum fields arrive as strings already
validated by the registry schema). -/
structure GetSalesReportInput where
  period : String
  groupBy : String
  metrics : List String
  limit : Int
deriving DecidableEq

/-- The ShopifyQL query resolved by getSalesReport.execute. -/
def salesReportQuery (i : GetSalesReportInput) : String :=
  buildShopifyQLQuery
    { from_ := "sales", show_ := i.metrics, groupBy := some i.groupBy,
      period := i.period, limit := some i.limit }

/-- Successful result shape of get-sales-report. -/
structure SalesReportOutput where
  query : String
  period : String
  groupBy : String
  columns : List QLColumn
  rows : List (List String)
  rowCount : Nat
deriving DecidableEq

/-- The try-block of getSalesReport.execute after the response arrived. -/
def getSalesReportBody (i : GetSalesReportInput) (resp : ShopifyQLResponse) :
    Except String SalesReportOutput :=
  let q := salesReportQuery i
  if resp.parseErrors.length > 0 then
    .error (shopifyqlParseErrorsMessage resp.parseErrors)
  else
    match resp.tableData with
    | none =>
        .ok { query := q, period := i.period, groupBy := i.groupBy,
              columns := [], rows := [], rowCount := 0 }
    | some td =>
        .ok { query := q, period := i.period, groupBy := i.groupBy,
              columns := td.columns, rows := td.rows, rowCount := td.rows.length }

/-- getSalesReport.execute as a function of the remote outcome. -/
def getSalesReportExecute (i : GetSalesReportInput)
    (remote : Except String ShopifyQLResponse) : Except String SalesReportOutput :=
  catchWrap "Failed to fetch sales report: "
    (match remote with
     | .error e => .error e
     | .ok resp => getSalesReportBody i resp)

/-- Input of the get-product-performance tool. -/
structure GetProductPerformanceInput where
  period : String
  sortBy : String
  limit : Int
  productType : Option String
deriving DecidableEq

/-- The fixed metric list of getProductPerformance. -/
def productPerformanceMetrics : List String :=
  ["product_title", "total_sales", "orders", "units_sold"]

/-- The ShopifyQL query resolved by getProductPerformance.execute, built by
string interpolation in the source (including the double space left when no
productType filter is given). -/
def productPerformanceQuery (i : GetProductPerformanceInput) : String :=
  let whereClause :=
    if truthyStr i.productType then
      "WHERE product_type = \x27" ++ i.productType.getD "" ++ "\x27"
    else ""
  "FROM sales SHOW " ++ String.intercalate ", " productPerformanceMetrics ++ " " ++
    whereClause ++ " " ++ periodToShopifyQL i.period ++
    " GROUP BY product_title ORDER BY " ++ i.sortBy ++ " DESC LIMIT " ++ toString i.limit

/-- One response row turned into a record keyed by column name, as done by the
forEach over columns: an out-of-range row index yields undefined in JS,
modelled as the empty string; the record is modelled as an association list in
column order. -/
def rowToRecord (cols : List QLColumn) (row : List String) : List (String × String) :=
  cols.enum.map (fun p => (p.2.name, row.getD p.1 ""))

/-- Successful result shape of get-product-performance. -/
structure ProductPerformanceOutput where
  query : String
  period : String
  sortBy : String
  columns : List QLColumn
  products : List (List (String × String))
  productCount : Nat
deriving DecidableEq

/-- The try-block of getProductPerformance.execute after the response arrived. -/
def getProductPerformanceBody (i : GetProductPerformanceInput)
    (resp : ShopifyQLResponse) : Except String ProductPerformanceOutput :=
  let q := productPerformanceQuery i
  if resp.parseErrors.length > 0 then
    .error (shopifyqlParseErrorsMessage resp.parseErrors)
  else
    match resp.tableData with
    | none =>
        .ok { query := q, period := i.period, sortBy := i.sortBy,
              columns := [], products := [], productCount := 0 }
    | some td =>
        let products := td.rows.map (rowToRecord td.columns)
        .ok { query := q, period := i.period, sortBy := i.sortBy,
              columns := td.columns, products := products,
              productCount := products.length }

/-- getProductPerformance.execute as a function of the remote outcome. -/
def getProductPerformanceExecute (i : GetProductPerformanceInput)
    (remote : Except String ShopifyQLResponse) : Except String ProductPerformanceOutput :=
  catchWrap "Failed to fetch product performance: "
    (match remote with
     | .error e => .error e
     | .ok resp => getProductPerformanceBody i resp)

/-- Input of the get-customer-analytics tool. -/
structure GetCustomerAnalyticsInput where
  period : String
  reportType : String
  groupBy : String
deriving DecidableEq

/-- The ShopifyQL query resolved by getCustomerAnalytics.execute: a switch on
reportType whose default case coincides with the overview case. -/
def customerAnalyticsQuery (i : GetCustomerAnalyticsInput) : String :=
  let periodClause := periodToShopifyQL i.period
  if i.reportType = "acquisition" then
    "FROM sales SHOW total_sales, orders WHERE customer_type = \x27First-time\x27 OR customer_type = \x27Returning\x27 " ++
      periodClause ++ " GROUP BY customer_type, " ++ i.groupBy ++ " ORDER BY " ++ i.groupBy
  else if i.reportType = "retention" then
    "FROM sales SHOW total_sales, orders, average_order_value " ++ periodClause ++
      " GROUP BY customer_type ORDER BY total_sales DESC"
  else if i.reportType = "spending" then
    "FROM sales SHOW total_sales, orders, average_order_value " ++ periodClause ++
      " GROUP BY billing_country ORDER BY total_sales DESC LIMIT 20"
  else
    "FROM sales SHOW total_sales, orders, average_order_value " ++ periodClause ++
      " GROUP BY customer_type, " ++ i.groupBy ++ " ORDER BY " ++ i.groupBy

/-- Successful result shape of get-customer-analytics. The source's empty
branch returns an object without a groupBy key and with an empty rows array;
this is modelled as groupBy none and results empty. -/
structure CustomerAnalyticsOutput where
  query : String
  period : String
  reportType : String
  groupBy : Option String
  columns : List QLColumn
  results : List (List (String × String))
  rowCount : Nat
deriving DecidableEq

/-- The try-block of getCustomerAnalytics.execute after the response arrived. -/
def getCustomerAnalyticsBody (i : GetCustomerAnalyticsInput)
    (resp : ShopifyQLResponse) : Except String CustomerAnalyticsOutput :=
  let q := customerAnalyticsQuery i
  if resp.parseErrors.length > 0 then
    .error (shopifyqlParseErrorsMessage resp.parseErrors)
  else
    match resp.tableData with
    | none =>
        .ok { query := q, period := i.period, reportType := i.reportType,
              groupBy := none, columns := [], results := [], rowCount := 0 }
    | some td =>
        let results := td.rows.map (rowToRecord td.columns)
        .ok { query := q, period := i.period, reportType := i.reportType,
              groupBy := some i.groupBy, columns := td.columns,
              results := results, rowCount := results.length }

/-- getCustomerAnalytics.execute as a function of the remote outcome. -/
def getCustomerAnalyticsExecute (i : GetCustomerAnalyticsInput)
    (remote : Except String ShopifyQLResponse) : Except String CustomerAnalyticsOutput :=
  catchWrap "Failed to fetch customer analytics: "
    (match remote with
     | .error e => .error e
     | .ok resp => getCustomerAnalyticsBody i resp)

/-- One named quantity of an inventory level response. -/
structure InventoryQuantity where
  name : String
  quantity : Int
deriving DecidableEq

/-- The location sub-object of an inventory level response. -/
structure InventoryLocation where
  id : String
  name : String
deriving DecidableEq

/-- One inventory level node of the response. -/
structure InventoryLevelNode where
  id : String
  quantities : List InventoryQuantity
  location : InventoryLocation
deriving DecidableEq

/-- The product sub-object of an inventory variant. -/
structure VariantProduct where
  id : String
  title : String
deriving DecidableEq

/-- The variant sub-object of an inventory item node. -/
structure InventoryVariantNode where
  id : String
  title : String
  displayName : String
  product : VariantProduct
deriving DecidableEq

/-- One inventory item node of the response. -/
structure InventoryItemNode where
  id : String
  sku : Option String
  tracked : Bool
  inventoryLevels : List (Edge InventoryLevelNode)
  variant : Option InventoryVariantNode
deriving DecidableEq

/-- Reading one named quantity out of the quantityMap record: the record is
filled by a forEach (a later entry with the same name overwrites an earlier
one) and read back with a fallback of 0 for a missing name; a stored 0 also
reads back as 0, as it does under the JS or-with-zero fallback. -/
def quantityLookup (qs : List InventoryQuantity) (nm : String) : Int :=
  match qs.foldl (fun acc q => if q.name = nm then some q.quantity else acc) none with
  | some v => v
  | none => 0

/-- The per-location level mapping of getInventoryLevels.execute. -/
structure MappedInventoryLevel where
  locationId : String
  locationName : String
  available : Int
  incoming : Int
  committed : Int
  reserved : Int
  onHand : Int
deriving DecidableEq

/-- Map one inventory level node to its flat per-location shape. -/
def mapInventoryLevel (lv : InventoryLevelNode) : MappedInventoryLevel :=
  { locationId := lv.location.id,
    locationName := lv.location.name,
    available := quantityLookup lv.quantities "available",
    incoming := quantityLookup lv.quantities "incoming",
    committed := quantityLookup lv.quantities "committed",
    reserved := quantityLookup lv.quantities "reserved",
    onHand := quantityLookup lv.quantities "on_hand" }

/-- The flattened variant shape of a mapped inventory item. -/
structure MappedVariant where
  id : String
  title : String
  displayName : String
  productId : String
  productTitle : String
deriving DecidableEq

/-- One mapped inventory item, including the derived totals. -/
structure MappedInventoryItem where
  id : String
  sku : Option String
  tracked : Bool
  variant : Option MappedVariant
  inventoryLevels : List MappedInventoryLevel
  totalAvailable : Int
  totalOnHand : Int
deriving DecidableEq

/-- Map one inventory item node: map each level, flatten the variant, and
reduce the mapped levels to the item totals. -/
def mapInventoryItem (item : InventoryItemNode) : MappedInventoryItem :=
  let levels := item.inventoryLevels.map (fun le => mapInventoryLevel le.node)
  { id := item.id,
    sku := item.sku,
    tracked := item.tracked,
    variant := item.variant.map (fun v =>
      { id := v.id, title := v.title, displayName := v.displayName,
        productId := v.product.id, productTitle := v.product.title }),
    inventoryLevels := levels,
    totalAvailable := levels.foldl (fun s l => s + l.available) 0,
    totalOnHand := levels.foldl (fun s l => s + l.onHand) 0 }

/-- Input of the get-inventory-levels tool. -/
structure GetInventoryLevelsInput where
  limit : Int
  sku : Option String
  productId : Option String
deriving DecidableEq

/-- Successful result shape of get-inventory-levels. -/
structure InventoryOutput where
  inventoryItems : List MappedInventoryItem
  itemCount : Nat
deriving DecidableEq

/-- getInventoryLevels.execute as a function of the remote outcome (the list
of inventoryItems edges). -/
def getInventoryLevelsExecute (_i : GetInventoryLevelsInput)
    (remote : Except String (List (Edge InventoryItemNode))) :
    Except String InventoryOutput :=
  catchWrap "Failed to fetch inventory levels: "
    (match remote with
     | .error e => .error e
     | .ok edges =>
       let items := edges.map (fun e => mapInventoryItem e.node)
       .ok { inventoryItems := items, itemCount := items.length })

/-- The address sub-object of a location node. -/
structure LocationAddress where
  address1 : Option String
  address2 : Option String
  city : Option String
  province : Option String
  provinceCode : Option String
  country : Option String
  countryCode : Option String
  zip : Option String
  phone : Option String
deriving DecidableEq

/-- One location node of the response; the mapping in getLocations.execute
copies every field, so the mapped shape is the same. -/
structure LocationNode where
  id : String
  name : String
  isActive : Bool
  fulfillsOnlineOrders : Bool
  hasActiveInventory : Bool
  shipsInventory : Bool
  address : LocationAddress
deriving DecidableEq

/-- The field-by-field mapping of getLocations.execute. -/
def mapLocation (l : LocationNode) : LocationNode :=
  { id := l.id, name := l.name, isActive := l.isActive,
    fulfillsOnlineOrders := l.fulfillsOnlineOrders,
    hasActiveInventory := l.hasActiveInventory,
    shipsInventory := l.shipsInventory,
    address :=
      { address1 := l.address.address1, address2 := l.address.address2,
        city := l.address.city, province := l.address.province,
        provinceCode := l.address.provinceCode, country := l.address.country,
        countryCode := l.address.countryCode, zip := l.address.zip,
        phone := l.address.phone } }

/-- Input of the get-locations tool. -/
structure GetLocationsInput where
  limit : Int
  includeInactive : Bool
deriving DecidableEq

/-- Successful result shape of get-locations. -/
structure LocationsOutput where
  locations : List LocationNode
  locationCount : Nat
deriving DecidableEq

/-- getLocations.execute as a function of the remote outcome. -/
def getLocationsExecute (_i : GetLocationsInput)
    (remote : Except String (List (Edge LocationNode))) :
    Except String LocationsOutput :=
  catchWrap "Failed to fetch locations: "
    (match remote with
     | .error e => .error e
     | .ok edges =>
       let locations := edges.map (fun e => mapLocation e.node)
       .ok { locations := locations, locationCount := locations.length })

/-- One rule of a smart collection rule set. -/
structure CollectionRule where
  column : String
  relation : String
  condition : String
deriving DecidableEq

/-- The rule set of a smart collection. -/
structure CollectionRuleSet where
  appliedDisjunctively : Bool
  rules : List CollectionRule
deriving DecidableEq

/-- The image sub-object of a collection node. -/
structure CollectionImage where
  url : String
  altText : Option String
deriving DecidableEq

/-- One collection node of the response; productsCount holds the nested
productsCount.count value. -/
structure CollectionNode where
  id : String
  title : String
  handle : String
  description : Option String
  descriptionHtml : Option String
  productsCount : Nat
  sortOrder : String
  templateSuffix : Option String
  updatedAt : String
  image : Option CollectionImage
  ruleSet : Option CollectionRuleSet
deriving DecidableEq

/-- The JS or-with-null fallback applied to an optional string: undefined,
null and the empty string all collapse to null. -/
def orNullStr : Option String → Option String
  | none => none
  | some s => if s.isEmpty then none else some s

/-- One mapped collection of getCollections.execute. -/
structure MappedCollection where
  id : String
  title : String
  handle : String
  description : Option String
  productCount : Nat
  sortOrder : String
  templateSuffix : Option String
  updatedAt : String
  imageUrl : Option String
  imageAltText : Option String
  collectionType : String
  rules : Option CollectionRuleSet
deriving DecidableEq

/-- Map one collection node: a collection is smart when it has a rule set with
at least one rule; the unreachable inner none case of the rules projection
(guarded by the smart test, a non-null assertion in the source) yields none. -/
def mapCollection (col : CollectionNode) : MappedCollection :=
  let isSmartCollection : Bool :=
    match col.ruleSet with
    | none => false
    | some rs => rs.rules.length != 0
  { id := col.id, title := col.title, handle := col.handle,
    description := col.description,
    productCount := col.productsCount,
    sortOrder := col.sortOrder,
    templateSuffix := col.templateSuffix,
    updatedAt := col.updatedAt,
    imageUrl := orNullStr (col.image.map CollectionImage.url),
    imageAltText := orNullStr (col.image.bind CollectionImage.altText),
    collectionType := if isSmartCollection then "smart" else "manual",
    rules :=
      if isSmartCollection then
        match col.ruleSet with
        | some rs => some { appliedDisjunctively := rs.appliedDisjunctively, rules := rs.rules }
        | none => none
      else none }

/-- The query filter building step of getCollections.execute. -/
def buildCollectionsQueryFilter (searchQuery : Option String)
    (collectionType : String) : Option String :=
  let filters : List String := []
  let filters :=
    if truthyStr searchQuery then filters ++ ["title:*" ++ searchQuery.getD "" ++ "*"]
    else filters
  let filters :=
    if collectionType = "smart" then filters ++ ["collection_type:smart"]
    else if collectionType = "manual" then filters ++ ["collection_type:custom"]
    else filters
  if filters.length != 0 then some (String.intercalate " AND " filters) else none

/-- Input of the get-collections tool. -/
structure GetCollectionsInput where
  limit : Int
  searchQuery : Option String
  collectionType : String
deriving DecidableEq

/-- Successful result shape of get-collections. -/
structure CollectionsOutput where
  collections : List MappedCollection
  collectionCount : Nat
deriving DecidableEq

/-- getCollections.execute as a function of the remote outcome. -/
def getCollectionsExecute (_i : GetCollectionsInput)
    (remote : Except String (List (Edge CollectionNode))) :
    Except String CollectionsOutput :=
  catchWrap "Failed to fetch collections: "
    (match remote with
     | .error e => .error e
     | .ok edges =>
       let collections := edges.map (fun e => mapCollection e.node)
       .ok { collections := collections, collectionCount := collections.length })

/-- A money value flattened to amount and currency. -/
structure Money where
  amount : String
  currencyCode : String
deriving DecidableEq

/-- A money set wrapper carrying the shop money. -/
structure MoneySet where
  shopMoney : Money
deriving DecidableEq

/-- The customer sub-object of an order node; the mapping copies it. -/
structure OrderCustomer where
  id : String
  firstName : Option String
  lastName : Option String
  email : Option String
deriving DecidableEq

/-- The shipping address sub-object of an order node; the mapping copies it. -/
structure OrderAddress where
  city : Option String
  province : Option String
  country : Option String
deriving DecidableEq

/-- One line item node of an order. -/
structure OrderLineItemNode where
  title : String
  quantity : Int
  originalTotalSet : MoneySet
deriving DecidableEq

/-- One order node of the searchOrders response. -/
structure OrderNode where
  id : String
  name : String
  createdAt : String
  updatedAt : String
  processedAt : Option String
  displayFinancialStatus : String
  displayFulfillmentStatus : String
  confirmed : Bool
  closed : Bool
  cancelledAt : Option String
  totalPriceSet : MoneySet
  subtotalPriceSet : MoneySet
  totalTaxSet : MoneySet
  totalShippingPriceSet : MoneySet
  customer : Option OrderCustomer
  shippingAddress : Option OrderAddress
  tags : List String
  note : Option String
  lineItems : List (Edge OrderLineItemNode)
deriving DecidableEq

/-- One mapped line item of searchOrders. -/
structure MappedLineItem where
  title : String
  quantity : Int
  totalPrice : Money
deriving DecidableEq

/-- One mapped order of searchOrders. -/
structure MappedOrder where
  id : String
  name : String
  createdAt : String
  updatedAt : String
  processedAt : Option String
  financialStatus : String
  fulfillmentStatus : String
  confirmed : Bool
  closed : Bool
  cancelledAt : Option String
  totalPrice : Money
  subtotalPrice : Money
  totalTax : Money
  totalShipping : Money
  customer : Option OrderCustomer
  shippingAddress : Option OrderAddress
  tags : List String
  note : Option String
  lineItems : List MappedLineItem
deriving DecidableEq

/-- Pull the nested shop money out of a money set. -/
def mapMoney (m : MoneySet) : Money :=
  { amount := m.shopMoney.amount, currencyCode := m.shopMoney.currencyCode }

/-- The per-order mapping of searchOrders.execute. -/
def mapOrder (o : OrderNode) : MappedOrder :=
  { id := o.id, name := o.name, createdAt := o.createdAt, updatedAt := o.updatedAt,
    processedAt := o.processedAt,
    financialStatus := o.displayFinancialStatus,
    fulfillmentStatus := o.displayFulfillmentStatus,
    confirmed := o.confirmed, closed := o.closed, cancelledAt := o.cancelledAt,
    totalPrice := mapMoney o.totalPriceSet,
    subtotalPrice := mapMoney o.subtotalPriceSet,
    totalTax := mapMoney o.totalTaxSet,
    totalShipping := mapMoney o.totalShippingPriceSet,
    customer := o.customer.map (fun c =>
      { id := c.id, firstName := c.firstName, lastName := c.lastName, email := c.email }),
    shippingAddress := o.shippingAddress.map (fun a =>
      { city := a.city, province := a.province, country := a.country }),
    tags := o.tags, note := o.note,
    lineItems := o.lineItems.map (fun li =>
      { title := li.node.title, quantity := li.node.quantity,
        totalPrice := mapMoney li.node.originalTotalSet }) }

/-- Input of the search-orders tool. -/
structure SearchOrdersInput where
  query : String
  limit : Int
  sortKey : String
  reverse : Bool
deriving DecidableEq

/-- Successful result shape of search-orders. -/
structure SearchOrdersOutput where
  query : String
  sortKey : String
  reverse : Bool
  orders : List MappedOrder
  orderCount : Nat
deriving DecidableEq

/-- searchOrders.execute as a function of the remote outcome. -/
def searchOrdersExecute (i : SearchOrdersInput)
    (remote : Except String (List (Edge OrderNode))) :
    Except String SearchOrdersOutput :=
  catchWrap "Failed to search orders: "
    (match remote with
     | .error e => .error e
     | .ok edges =>
       let orders := edges.map (fun e => mapOrder e.node)
       .ok { query := i.query, sortKey := i.sortKey, reverse := i.reverse,
             orders := orders, orderCount := orders.length })

/-- C4: on a response with a non-empty parseErrors array, each of the four
analytics tools throws, and the surfaced error message is the tool's catch
head followed by the semicolon-joined parse error strings; no ok result (hence
no result mapping) is produced. -/
theorem c4_parse_errors (q : RunShopifyqlQueryInput) (s : GetSalesReportInput)
    (pp : GetProductPerformanceInput) (ca : GetCustomerAnalyticsInput)
    (resp : ShopifyQLResponse) (h : resp.parseErrors ≠ []) :
    runShopifyqlQueryExecute q (.ok resp) =
      .error ("Failed to execute ShopifyQL query: " ++
        shopifyqlParseErrorsMessage resp.parseErrors) ∧
    getSalesReportExecute s (.ok resp) =
      .error ("Failed to fetch sales report: " ++
        shopifyqlParseErrorsMessage resp.parseErrors) ∧
    getProductPerformanceExecute pp (.ok resp) =
      .error ("Failed to fetch product performance: " ++
        shopifyqlParseErrorsMessage resp.parseErrors) ∧
    getCustomerAnalyticsExecute ca (.ok resp) =
      .error ("Failed to fetch customer analytics: " ++
        shopifyqlParseErrorsMessage resp.parseErrors) := by
  have hl : resp.parseErrors.length > 0 := List.length_pos.mpr h
  refine ⟨?_, ?_, ?_, ?_⟩ <;>
    simp [runShopifyqlQueryExecute, runShopifyqlQueryBody,
      getSalesReportExecute, getSalesReportBody,
      getProductPerformanceExecute, getProductPerformanceBody,
      getCustomerAnalyticsExecute, getCustomerAnalyticsBody,
      catchWrap, hl]

/-- C4 witness: the theorem applied at concrete inputs and a response carrying
two parse errors, evaluated to the literal message. -/
theorem c4_parse_errors_witness :
    runShopifyqlQueryExecute { query := "FROM sales SHOW total_sales" }
        (.ok { tableData := none, parseErrors := ["err1", "err2"] }) =
      .error "Failed to execute ShopifyQL query: ShopifyQL parse errors: err1; err2" := by
  have h := c4_parse_errors
    { query := "FROM sales SHOW total_sales" }
    { period := "last_7_days", groupBy := "day", metrics := ["total_sales"], limit := 10 }
    { period := "last_7_days", sortBy := "total_sales", limit := 5, productType := none }
    { period := "last_7_days", reportType := "overview", groupBy := "day" }
    { tableData := none, parseErrors := ["err1", "err2"] }
    (by decide)
  exact h.1.trans rfl

/-- C5 counterexample: the run-shopifyql-query tool wraps failures with the
head Failed to execute ShopifyQL query, whose first fifteen characters are not
Failed to fetch, so not every tool's error message has a prefix of the form
Failed to fetch X. -/
theorem c5_prefix_counterexample :
    runShopifyqlQueryExecute { query := "FROM sales SHOW total_sales" }
        (.error "connection refused") =
      .error "Failed to execute ShopifyQL query: connection refused" ∧
    ("Failed to execute ShopifyQL query: connection refused").data.take 15 ≠
      "Failed to fetch".data :=
  ⟨rfl, by decide⟩

/-- C5 amended: every tool of the repository catches a failure inside execute
exactly once and re-raises it as a single error that is its tool-specific
message head followed by the original cause's message; the head is of the form
Failed to fetch X for the fetch tools, but Failed to execute ShopifyQL query
for run-shopifyql-query and Failed to search orders for search-orders. On
failure the result is this error, never an ok result. -/
theorem c5_error_wrapping (q : RunShopifyqlQueryInput) (s : GetSalesReportInput)
    (pp : GetProductPerformanceInput) (ca : GetCustomerAnalyticsInput)
    (inv : GetInventoryLevelsInput) (loc : GetLocationsInput)
    (col : GetCollectionsInput) (so : SearchOrdersInput) (e : String) :
    runShopifyqlQueryExecute q (.error e) =
      .error ("Failed to execute ShopifyQL query: " ++ e) ∧
    getSalesReportExecute s (.error e) =
      .error ("Failed to fetch sales report: " ++ e) ∧
    getProductPerformanceExecute pp (.error e) =
      .error ("Failed to fetch product performance: " ++ e) ∧
    getCustomerAnalyticsExecute ca (.error e) =
      .error ("Failed to fetch customer analytics: " ++ e) ∧
    getInventoryLevelsExecute inv (.error e) =
      .error ("Failed to fetch inventory levels: " ++ e) ∧
    getLocationsExecute loc (.error e) =
      .error ("Failed to fetch locations: " ++ e) ∧
    getCollectionsExecute col (.error e) =
      .error ("Failed to fetch collections: " ++ e) ∧
    searchOrdersExecute so (.error e) =
      .error ("Failed to search orders: " ++ e) :=
  ⟨rfl, rfl, rfl, rfl, rfl, rfl, rfl, rfl⟩

/-- The accumulator of the quantityMap fold is untouched when no quantity
carries the looked-up name. -/
theorem quantityFold_of_not_mem (nm : String) :
    ∀ (qs : List InventoryQuantity) (acc : Option Int),
      (∀ q ∈ qs, q.name ≠ nm) →
      qs.foldl (fun acc q => if q.name = nm then some q.quantity else acc) acc = acc := by
  intro qs
  induction qs with
  | nil => intro acc _; rfl
  | cons q qs ih =>
    intro acc h
    have hq : q.name ≠ nm := h q (List.mem_cons_self q qs)
    simp only [List.foldl_cons, if_neg hq]
    exact ih acc (fun x hx => h x (List.mem_cons_of_mem q hx))

/-- A name missing from the quantities list reads back as 0. -/
theorem quantityLookup_eq_zero {qs : List InventoryQuantity} {nm : String}
    (h : ∀ q ∈ qs, q.name ≠ nm) : quantityLookup qs nm = 0 := by
  rw [quantityLookup, quantityFold_of_not_mem nm qs none h]

/-- A left fold adding an integer projection equals the initial value plus the
sum of the mapped list. -/
theorem foldl_add_proj {α : Type} (f : α → Int) :
    ∀ (l : List α) (a : Int), l.foldl (fun s x => s + f x) a = a + (l.map f).sum := by
  intro l
  induction l with
  | nil => intro a; simp
  | cons x xs ih =>
    intro a
    simp only [List.foldl_cons, List.map_cons, List.sum_cons, ih (a + f x)]
    ring

/-- C7: a per-location quantities list without a reserved entry maps to a
level with reserved 0, and every mapped item's totalAvailable and totalOnHand
are the sums of the available and onHand values of its mapped levels (every
missing named quantity reading as 0 by quantityLookup). -/
theorem c7_inventory_defaults (lv : InventoryLevelNode) (item : InventoryItemNode)
    (h : ∀ q ∈ lv.quantities, q.name ≠ "reserved") :
    (mapInventoryLevel lv).reserved = 0 ∧
    (mapInventoryItem item).totalAvailable =
      ((mapInventoryItem item).inventoryLevels.map MappedInventoryLevel.available).sum ∧
    (mapInventoryItem item).totalOnHand =
      ((mapInventoryItem item).inventoryLevels.map MappedInventoryLevel.onHand).sum := by
  refine ⟨quantityLookup_eq_zero h, ?_, ?_⟩ <;>
    simp [mapInventoryItem, foldl_add_proj]

/-- C7 witness: the theorem applied at a concrete level lacking a reserved
entry and a concrete two-location item. -/
theorem c7_inventory_defaults_witness :
    (mapInventoryLevel
      { id := "L1",
        quantities := [{ name := "available", quantity := 5 }, { name := "on_hand", quantity := 7 }],
        location := { id := "loc1", name := "Main" } }).reserved = 0 :=
  (c7_inventory_defaults
    { id := "L1",
      quantities := [{ name := "available", quantity := 5 }, { name := "on_hand", quantity := 7 }],
      location := { id := "loc1", name := "Main" } }
    { id := "I1", sku := some "SKU-1", tracked := true,
      inventoryLevels :=
        [{ node :=
            { id := "L1",
              quantities := [{ name := "available", quantity := 5 }],
              location := { id := "loc1", name := "Main" } } }],
      variant := none }
    (by decide)).1

/-- Every string occurring anywhere in a run-shopifyql-query result: the
column descriptors and the row cells. -/
def runQLOutputStrings (o : RunQLOutput) : List String :=
  o.columns.flatMap (fun c => [c.name, c.dataType, c.displayName]) ++ o.rows.flatMap id

/-- C9 counterexample: a successful run-shopifyql-query execution returns only
columns, rows and rowCount, and the submitted query string occurs nowhere in
the result, so this analytics tool's result carries no echo of the resolved
query. -/
theorem c9_no_echo_counterexample :
    runShopifyqlQueryExecute { query := "FROM sales SHOW total_sales" }
        (.ok { tableData := some
                { columns := [{ name := "day", dataType := "date", displayName := "Day" }],
                  rows := [["2024-01-01", "5"]] },
               parseErrors := [] }) =
      .ok { columns := [{ name := "day", dataType := "date", displayName := "Day" }],
            rows := [["2024-01-01", "5"]], rowCount := 1 } ∧
    "FROM sales SHOW total_sales" ∉
      runQLOutputStrings
        { columns := [{ name := "day", dataType := "date", displayName := "Day" }],
          rows := [["2024-01-01", "5"]], rowCount := 1 } := by
  exact ⟨rfl, by decide⟩

/-- C9 amended: of the analytics tools, get-sales-report,
get-product-performance and get-customer-analytics echo the resolved ShopifyQL
query in the query field of every successful result, while run-shopifyql-query
returns only columns, rows and rowCount with no echo. -/
theorem c9_query_echo (s : GetSalesReportInput) (pp : GetProductPerformanceInput)
    (ca : GetCustomerAnalyticsInput) (resp : ShopifyQLResponse)
    (h : resp.parseErrors = []) :
    (∃ out, getSalesReportExecute s (.ok resp) = .ok out ∧
      out.query = salesReportQuery s) ∧
    (∃ out, getProductPerformanceExecute pp (.ok resp) = .ok out ∧
      out.query = productPerformanceQuery pp) ∧
    (∃ out, getCustomerAnalyticsExecute ca (.ok resp) = .ok out ∧
      out.query = customerAnalyticsQuery ca) := by
  refine ⟨?_, ?_, ?_⟩
  · cases htd : resp.tableData with
    | none =>
        refine ⟨{ query := salesReportQuery s, period := s.period, groupBy := s.groupBy,
                  columns := [], rows := [], rowCount := 0 }, ?_, rfl⟩
        simp [getSalesReportExecute, getSalesReportBody, catchWrap, h, htd]
    | some td =>
        refine ⟨{ query := salesReportQuery s, period := s.period, groupBy := s.groupBy,
                  columns := td.columns, rows := td.rows, rowCount := td.rows.length }, ?_, rfl⟩
        simp [getSalesReportExecute, getSalesReportBody, catchWrap, h, htd]
  · cases htd : resp.tableData with
    | none =>
        refine ⟨{ query := productPerformanceQuery pp, period := pp.period, sortBy := pp.sortBy,
                  columns := [], products := [], productCount := 0 }, ?_, rfl⟩
        simp [getProductPerformanceExecute, getProductPerformanceBody, catchWrap, h, htd]
    | some td =>
        refine ⟨{ query := productPerformanceQuery pp, period := pp.period, sortBy := pp.sortBy,
                  columns := td.columns, products := td.rows.map (rowToRecord td.columns),
                  productCount := (td.rows.map (rowToRecord td.columns)).length }, ?_, rfl⟩
        simp [getProductPerformanceExecute, getProductPerformanceBody, catchWrap, h, htd]
  · cases htd : resp.tableData with
    | none =>
        refine ⟨{ query := customerAnalyticsQuery ca, period := ca.period,
                  reportType := ca.reportType, groupBy := none,
                  columns := [], results := [], rowCount := 0 }, ?_, rfl⟩
        simp [getCustomerAnalyticsExecute, getCustomerAnalyticsBody, catchWrap, h, htd]
    | some td =>
        refine ⟨{ query := customerAnalyticsQuery ca, period := ca.period,
                  reportType := ca.reportType, groupBy := some ca.groupBy,
                  columns := td.columns, results := td.rows.map (rowToRecord td.columns),
                  rowCount := (td.rows.map (rowToRecord td.columns)).length }, ?_, rfl⟩
        simp [getCustomerAnalyticsExecute, getCustomerAnalyticsBody, catchWrap, h, htd]

/-- C9 witness: the amended theorem applied at concrete inputs and an
error-free response with no table data. -/
theorem c9_query_echo_witness :
    (∃ out,
      getSalesReportExecute
          { period := "last_7_days", groupBy := "day", metrics := ["total_sales"], limit := 10 }
          (.ok { tableData := none, parseErrors := [] }) = .ok out ∧
      out.query = salesReportQuery
        { period := "last_7_days", groupBy := "day", metrics := ["total_sales"], limit := 10 }) :=
  (c9_query_echo
    { period := "last_7_days", groupBy := "day", metrics := ["total_sales"], limit := 10 }
    { period := "last_7_days", sortBy := "total_sales", limit := 5, productType := none }
    { period := "last_7_days", reportType := "overview", groupBy := "day" }
    { tableData := none, parseErrors := [] } rfl).1
